import Mathlib

/-!
Shallow embedding of the pointcloud-bench repository: the training launcher
`scripts/train_pct.py` and the plotting helpers `scripts/visuals.py`.

Python's runtime effects are made explicit: the filesystem is a flat map
from (absolute, normalized) path strings to nodes, subprocess and `git`
invocations are parameters describing the child's observable outcome, and
fallible calls return `Except`.
-/

/-! ## Subprocess runner: `run_and_report` (train_pct.py lines 15-32) -/

/-- Embedding of Python's `subprocess.CalledProcessError(returncode, cmd)`. -/
structure CalledProcessError where
  returncode : Nat
  cmd : List String
deriving DecidableEq, Repr

/-- Embedding of `run_and_report(cmd, cwd)`: `Popen(cmd).wait()` yields the
child's exit status `childStatus`; when it is nonzero the function raises
`CalledProcessError(ret, cmd)`, which the `except` block prints and re-raises
unchanged, so the caller sees exactly that exception. -/
def run_and_report (cmd : List String) (childStatus : Nat) :
    Except CalledProcessError Unit :=
  if childStatus ≠ 0 then .error ⟨childStatus, cmd⟩ else .ok ()

/-- Exit status of the launcher process as a function of the child's exit
status: `main` ends with `run_and_report(cmd, cwd=REPO)`; when that returns,
`main` falls through and the interpreter exits 0, and when the re-raised
`CalledProcessError` reaches top level uncaught (nothing in `main` or the
`__main__` guard catches it), the interpreter prints a traceback and exits
with its generic failure status 1. -/
def launcherExitStatus (cmd : List String) (childStatus : Nat) : Nat :=
  match run_and_report cmd childStatus with
  | .ok _ => 0
  | .error _ => 1

/-! ## Command-line construction (train_pct.py lines 76-81, 125) -/

/-- Embedding of the capture of `args.extra` by `argparse` with
`nargs=argparse.REMAINDER` (lines 76-81): the remainder keeps every trailing
token as given, a leading `--` separator included, because the standard
library strips the first `--` only for non-REMAINDER actions
(`argparse._get_values`). -/
def remainderCapture (trailing : List String) : List String :=
  trailing

/-- Embedding of line 125: `cmd = [sys.executable, 'train_cls.py', *args.extra]`. -/
def buildCmd (sysExecutable : String) (extra : List String) : List String :=
  sysExecutable :: "train_cls.py" :: extra

/-! ## Dataset linker: `ensure_symlink` (train_pct.py lines 35-48) -/

/-- A filesystem node: a real directory, or a symbolic link storing the
target path it was created with. -/
inductive Node where
  | dir
  | symlink (target : String)
deriving DecidableEq, Repr

/-- Flat filesystem: absolute, normalized path strings to nodes.  The
directory hierarchy is not modelled, so line 38's
`link.parent.mkdir(parents=True, exist_ok=True)` is the identity here. -/
abbrev FS : Type := String → Option Node

def FS.remove (fs : FS) (p : String) : FS :=
  fun q => if q = p then none else fs q

def FS.insert (fs : FS) (p : String) (n : Node) : FS :=
  fun q => if q = p then some n else fs q

/-- Follow a chain of symbolic links; `fuel` bounds the chain length (the
OS bounds it with ELOOP).  Returns the existing node at the end of the
chain, or `none` when the chain dangles or exceeds `fuel`. -/
def followLinks (fs : FS) : Nat → String → Option Node
  | 0, _ => none
  | fuel + 1, p =>
    match fs p with
    | some (.symlink t) => followLinks fs fuel t
    | some .dir => some .dir
    | none => none

/-- Embedding of `Path.exists()`: follows symlinks, so it is `false` on a
dangling link. -/
def pyExists (fs : FS) (fuel : Nat) (p : String) : Bool :=
  (followLinks fs fuel p).isSome

/-- Embedding of `Path.is_symlink()`. -/
def is_symlink (fs : FS) (p : String) : Bool :=
  match fs p with
  | some (.symlink _) => true
  | _ => false

/-- Embedding of non-strict `Path.resolve()`: follow symlinks as far as
possible and return the resulting path; a dangling link resolves to the
path it stores, without raising. -/
def pyResolve (fs : FS) : Nat → String → String
  | 0, p => p
  | fuel + 1, p =>
    match fs p with
    | some (.symlink t) => pyResolve fs fuel t
    | _ => p

/-- Embedding of `Path.unlink()`: removes the entry itself (not its target);
`FileNotFoundError` (an `OSError`) when the entry is absent. -/
def unlink (fs : FS) (p : String) : Except String FS :=
  match fs p with
  | some _ => .ok (fs.remove p)
  | none => .error "FileNotFoundError"

/-- Embedding of `Path.symlink_to(target)`: creates the link entry;
`FileExistsError` (an `OSError`) when the path is already taken. -/
def symlink_to (fs : FS) (link target : String) : Except String FS :=
  match fs link with
  | some _ => .error "FileExistsError"
  | none => .ok (fs.insert link (.symlink target))

/-- Outcome of `ensure_symlink`: the resulting filesystem, and whether the
`except OSError` handler fired and printed its warning. -/
structure LinkResult where
  fs : FS
  warned : Bool

/-- Embedding of `ensure_symlink(target, link)` (lines 35-48), filesystem
state passed explicitly.  Any `OSError` raised in the body is caught and
downgraded to a printed warning, leaving the filesystem as the failing
call left it. -/
def ensure_symlink (fuel : Nat) (fs : FS) (target link : String) : LinkResult :=
  if pyExists fs fuel link || is_symlink fs link then
    if pyResolve fs fuel link ≠ pyResolve fs fuel target then
      match unlink fs link with
      | .error _ => ⟨fs, true⟩
      | .ok fs1 =>
        match symlink_to fs1 link target with
        | .error _ => ⟨fs1, true⟩
        | .ok fs2 => ⟨fs2, false⟩
    else ⟨fs, false⟩
  else
    match symlink_to fs link target with
    | .error _ => ⟨fs, true⟩
    | .ok fs2 => ⟨fs2, false⟩

/-! ## Provenance recorder: `git_rev` and the `meta` dict
(train_pct.py lines 51-58 and 94-113) -/

/-- The ways `subprocess.check_output(['git', 'rev-parse', 'HEAD'],
cwd=path)` can fail; all are subclasses of `Exception`. -/
inductive GitError where
  | calledProcessError (returncode : Nat)
  | fileNotFoundError
  | osError
deriving DecidableEq, Repr

/-- Embedding of `git_rev(path)` (lines 51-58): decode and strip the
captured output (`.decode().strip()` removes surrounding whitespace, here
`String.trim`); any exception is caught and yields the sentinel. -/
def git_rev (r : Except GitError String) : String :=
  match r with
  | .ok s => s.trim
  | .error _ => "unknown"

/-- A value in the serialized provenance record. -/
inductive JsonVal where
  | str (s : String)
  | bool (b : Bool)
  | null
  | arr (xs : List String)
deriving DecidableEq, Repr

/-- The importable `torch` module as this code observes it; each
introspection is a fallible call.  `getattr(torch.version, 'cuda', None)`
never raises thanks to its default, so it is total. -/
structure TorchModule where
  version : Except Unit String
  cudaVersion : Option String
  cudaAvailable : Except Unit Bool
  getDeviceName : Except Unit String

/-- Embedding of the `meta.update({...})` block (lines 102-112): the dict
literal evaluates every entry before `update` runs, so a failed
`import torch` (the `none` case) or a failure anywhere inside the literal
reaches the `except Exception: pass` and leaves `meta` untouched; the
device name is only queried when `torch.cuda.is_available()` is true,
otherwise `gpu_name` is `None`. -/
def torchBlock (torch : Option TorchModule) : Option (List (String × JsonVal)) :=
  match torch with
  | none => none
  | some t =>
    match t.version, t.cudaAvailable with
    | .ok v, .ok avail =>
      let cv : JsonVal :=
        match t.cudaVersion with
        | some s => .str s
        | none => .null
      if avail then
        match t.getDeviceName with
        | .ok g =>
          some [("torch", .str v), ("cuda_version", cv),
                ("cuda_available", .bool avail), ("gpu_name", .str g)]
        | .error _ => none
      else
        some [("torch", .str v), ("cuda_version", cv),
              ("cuda_available", .bool avail), ("gpu_name", .null)]
    | _, _ => none

/-- Environment inputs of `main`'s provenance step: the outcomes of the two
`git` invocations, the formatted wall-clock time, `sys.argv`, and the
`torch` import. -/
structure Env where
  repoGit : Except GitError String
  benchGit : Except GitError String
  timeStr : String
  argv : List String
  torch : Option TorchModule

/-- Embedding of the `meta` dict of lines 94-112 as an ordered key-value
list; `meta.update` with keys disjoint from the existing ones appends its
entries. -/
def buildMeta (repoPath : String) (env : Env) : List (String × JsonVal) :=
  let base : List (String × JsonVal) :=
    [("model", .str "Point-Transformers (PCT variant)"),
     ("repo_path", .str repoPath),
     ("repo_commit", .str (git_rev env.repoGit)),
     ("bench_commit", .str (git_rev env.benchGit)),
     ("time", .str env.timeStr),
     ("argv", .arr env.argv)]
  match torchBlock env.torch with
  | some extra => base ++ extra
  | none => base

/-- Persisted files: a flat map from path to file content. -/
abbrev Store : Type := String → Option String

/-- Embedding of `Path.write_text(content)` (line 113): truncates and
rewrites the file at that path. -/
def write_text (st : Store) (p content : String) : Store :=
  fun q => if q = p then some content else st q

/-! ## Plotting helpers (scripts/visuals.py) -/

/-- One row of the `(n, points, 6)` array: 3 spatial coordinates followed by
a 3-vector normal.  The scalar type is abstract: the code only selects and
copies components, it never computes with them. -/
structure Point6 (α : Type) where
  x : α
  y : α
  z : α
  nx : α
  ny : α
  nz : α
deriving DecidableEq, Repr

/-- The artist handle returned by `ax.scatter(xs, ys, zs, c=colors,
s=point_size, cmap='viridis')` (visuals.py lines 41-48).  The point size is
a rational: the `int` annotation is not enforced by Python and
`visualize_samples` passes 0.8. -/
structure Scatter (α : Type) where
  xs : List α
  ys : List α
  zs : List α
  colors : List α
  pointSize : ℚ
  cmap : String
deriving DecidableEq, Repr

/-- A 3D axes object as this code observes it: the scatters drawn on it and
its title. -/
structure Axes (α : Type) where
  scatters : List (Scatter α)
  title : Option String
deriving DecidableEq, Repr

/-- A fresh axes object, as `fig.add_subplot(111, projection='3d')` or
`plt.subplots` produce. -/
def emptyAxes (α : Type) : Axes α := ⟨[], none⟩

/-- The scatter artist `visualize_cloud` builds from one sample: spatial
coordinates as positions, the third normal component as color, the
viridis colormap. -/
def scatterOf {α : Type} (sample : List (Point6 α)) (point_size : ℚ) :
    Scatter α :=
  { xs := sample.map (fun p => p.x)
    ys := sample.map (fun p => p.y)
    zs := sample.map (fun p => p.z)
    colors := sample.map (fun p => p.nz)
    pointSize := point_size
    cmap := "viridis" }

/-- The observable outcome of one `visualize_cloud` call. -/
structure CloudResult (α : Type) where
  axOut : Axes α
  sc : Scatter α
  createdFig : Bool
  colorbarAdded : Bool
  returned : Option (Scatter α)
deriving DecidableEq, Repr

/-- Embedding of `visualize_cloud(data, i, ax, colorbar, return_sc,
point_size)` (visuals.py lines 7-59): `data[i]` raises `IndexError` when
out of range; `points = sample[:, :3]` and `normals = sample[:, 3:]`; the
scatter is colored by `normals[:, 2]` (the sixth column); a colorbar is
drawn only when `colorbar` is set and the function created its own figure;
the scatter handle is returned only when `return_sc` is set. -/
def visualize_cloud {α : Type} (data : List (List (Point6 α))) (i : Nat)
    (ax : Option (Axes α)) (colorbar : Bool) (return_sc : Bool)
    (point_size : ℚ) : Except String (CloudResult α) :=
  match data[i]? with
  | none => .error "IndexError"
  | some sample =>
    let createdFig := ax.isNone
    let ax0 := ax.getD (emptyAxes α)
    let sc : Scatter α := scatterOf sample point_size
    let ax1 : Axes α := { ax0 with scatters := ax0.scatters ++ [sc] }
    .ok { axOut := ax1
          sc := sc
          createdFig := createdFig
          colorbarAdded := colorbar && createdFig
          returned := if return_sc then some sc else none }

/-- Embedding of the `for ax, idx in zip(axs.ravel(), indices)` loop of
`visualize_samples` (visuals.py lines 96-105): plot sample `idx` onto `ax`
with `colorbar=False, return_sc=True`, then set the subplot title; `zip`
stops at the shorter of the two lists. -/
def plotGrid {α : Type} (data : List (List (Point6 α))) (point_size : ℚ) :
    List (Axes α) → List Nat → Except String (List (Axes α))
  | [], _ => .ok []
  | axs, [] => .ok axs
  | ax :: axs, idx :: rest =>
    match visualize_cloud data idx (some ax) false true point_size with
    | .error e => .error e
    | .ok out =>
      match plotGrid data point_size axs rest with
      | .error e => .error e
      | .ok tail =>
        .ok ({ out.axOut with title := some ("Sample " ++ toString idx) } :: tail)

/-- A figure as `plt.subplots(2, 3, subplot_kw=..., figsize=...)` plus
`fig.suptitle(title)` leave it: six 3D axes and the overall title. -/
structure GridFig (α : Type) where
  axes : List (Axes α)
  suptitle : String
deriving DecidableEq, Repr

/-- Embedding of `visualize_samples(data, indices, title, point_size)`
(visuals.py lines 84-109): a fixed 2x3 grid of fresh axes, the zip loop
over it, then the suptitle. -/
def visualize_samples {α : Type} (data : List (List (Point6 α)))
    (indices : List Nat) (title : String) (point_size : ℚ) :
    Except String (GridFig α) :=
  match plotGrid data point_size (List.replicate 6 (emptyAxes α)) indices with
  | .error e => .error e
  | .ok axs => .ok { axes := axs, suptitle := title }

/-! ## Concrete instances used by the witnesses -/

/-- A filesystem holding two dataset directories and no alias yet. -/
def sampleFS : FS := fun p =>
  if p = "datasets/modelnet40_normal_resampled" then some .dir
  else if p = "datasets/other" then some .dir
  else none

/-- A filesystem whose alias is a dangling symlink: its stored target
`datasets/gone` does not exist. -/
def brokenFS : FS := fun p =>
  if p = "repos/Point-Transformers/modelnet40_normal_resampled" then
    some (.symlink "datasets/gone")
  else if p = "datasets/modelnet40_normal_resampled" then some .dir
  else none

/-- An environment in which both git lookups fail and torch is absent. -/
def envNoTorch : Env :=
  { repoGit := .error .fileNotFoundError
    benchGit := .error .osError
    timeStr := "2026-10-12 00:00:00"
    argv := ["scripts/train_pct.py"]
    torch := none }

/-- An environment in which everything succeeds, CUDA included. -/
def envFullTorch : Env :=
  { repoGit := .ok "0123abcd\n"
    benchGit := .ok "4567ef00\n"
    timeStr := "2026-10-12 00:00:00"
    argv := ["scripts/train_pct.py"]
    torch := some
      { version := .ok "2.1.0"
        cudaVersion := some "12.1"
        cudaAvailable := .ok true
        getDeviceName := .ok "NVIDIA A100" } }

/-- A four-point sample, i.e. one slice of a `(1, 4, 6)` array. -/
def samplePoints : List (Point6 Int) :=
  [⟨0, 0, 0, 0, 0, 1⟩, ⟨1, 0, 0, 0, 0, 2⟩, ⟨0, 1, 0, 0, 0, 3⟩, ⟨0, 0, 1, 0, 0, 4⟩]

/-! ## Helper lemmas -/

theorem followLinks_succ (fs : FS) (fuel : Nat) (p : String) :
    followLinks fs (fuel + 1) p =
      match fs p with
      | some (.symlink t) => followLinks fs fuel t
      | some .dir => some .dir
      | none => none := rfl

theorem pyResolve_succ (fs : FS) (fuel : Nat) (p : String) :
    pyResolve fs (fuel + 1) p =
      match fs p with
      | some (.symlink t) => pyResolve fs fuel t
      | _ => p := rfl

theorem followLinks_absent (fs : FS) (fuel : Nat) (p : String)
    (h : fs p = none) : followLinks fs fuel p = none := by
  cases fuel with
  | zero => rfl
  | succ f => rw [followLinks_succ, h]

theorem followLinks_dir (fs : FS) (fuel : Nat) (p : String)
    (h : fs p = some .dir) (hfuel : 1 ≤ fuel) :
    followLinks fs fuel p = some .dir := by
  cases fuel with
  | zero => omega
  | succ f => rw [followLinks_succ, h]

theorem pyResolve_absent (fs : FS) (fuel : Nat) (p : String)
    (h : fs p = none) : pyResolve fs fuel p = p := by
  cases fuel with
  | zero => rfl
  | succ f => rw [pyResolve_succ, h]

theorem pyResolve_dir (fs : FS) (fuel : Nat) (p : String)
    (h : fs p = some .dir) : pyResolve fs fuel p = p := by
  cases fuel with
  | zero => rfl
  | succ f => rw [pyResolve_succ, h]

/-! ## Claims -/

/-- C1, counterexample: a child command that exits with status 2 makes the
launcher exit with status 1, not 2 — the `CalledProcessError` re-raised by
`run_and_report` escapes `main` uncaught, and an uncaught exception gives
the interpreter's generic failure status, so the child's status is not
propagated untranslated. -/
theorem C1_counterexample :
    launcherExitStatus ["python", "train_cls.py"] 2 = 1 ∧
    launcherExitStatus ["python", "train_cls.py"] 2 ≠ 2 := by
  constructor
  · rfl
  · decide

/-- C1, amended: if the child exits with status 0 the launcher exits with
status 0; if the child exits with status N ≠ 0, `run_and_report` raises
`CalledProcessError(N, cmd)` — so N is reported in the printed diagnostics —
and the launcher's own exit status is the interpreter's generic failure
status 1, whatever N was. -/
theorem C1_exit_status (cmd : List String) (n : Nat) (hn : n ≠ 0) :
    launcherExitStatus cmd 0 = 0 ∧
    run_and_report cmd n = .error ⟨n, cmd⟩ ∧
    launcherExitStatus cmd n = 1 := by
  refine ⟨rfl, ?_, ?_⟩ <;> simp [launcherExitStatus, run_and_report, hn]

/-- Witness for C1 at child status 2. -/
theorem C1_exit_status_witness :
    (2 : Nat) ≠ 0 ∧
    (launcherExitStatus ["python", "train_cls.py"] 0 = 0 ∧
     run_and_report ["python", "train_cls.py"] 2 =
       .error ⟨2, ["python", "train_cls.py"]⟩ ∧
     launcherExitStatus ["python", "train_cls.py"] 2 = 1) :=
  ⟨by decide, C1_exit_status ["python", "train_cls.py"] 2 (by decide)⟩

/-- C2, counterexample: with the trailing argument list
`['--', 'trainer.fast_dev_run=1']`, the built command line still contains
the leading `--` separator — argparse REMAINDER does not strip it and
line 125 forwards `args.extra` verbatim — contradicting the claimed
stripped form. -/
theorem C2_counterexample :
    buildCmd "python" (remainderCapture ["--", "trainer.fast_dev_run=1"]) =
      ["python", "train_cls.py", "--", "trainer.fast_dev_run=1"] ∧
    buildCmd "python" (remainderCapture ["--", "trainer.fast_dev_run=1"]) ≠
      ["python", "train_cls.py", "trainer.fast_dev_run=1"] := by
  constructor
  · rfl
  · decide

/-- C2, amended: no token is ever stripped — every trailing argument,
a leading `--` separator included, appears in the built command line
unmodified and in original order immediately after the interpreter and the
entry-point script name. -/
theorem C2_forwarding (exe : String) (extra : List String) :
    (buildCmd exe (remainderCapture extra)).length = extra.length + 2 ∧
    (buildCmd exe (remainderCapture extra))[0]? = some exe ∧
    (buildCmd exe (remainderCapture extra))[1]? = some "train_cls.py" ∧
    ∀ k : Nat, (buildCmd exe (remainderCapture extra))[k + 2]? = extra[k]? := by
  refine ⟨?_, ?_, ?_, fun k => ?_⟩ <;> simp [buildCmd, remainderCapture]

/-- C3: when the alias is a dangling symlink (it exists as a link but its
stored target does not exist), `ensure_symlink` with a new valid target
succeeds — the warning branch does not fire — and afterwards the alias
points at, and resolves to, the new valid target. -/
theorem C3_broken_alias_relinked (fs : FS) (fuel : Nat) (link old target : String)
    (hlink : fs link = some (.symlink old))
    (hold : fs old = none)
    (htarget : fs target = some .dir)
    (hne : old ≠ target)
    (hfuel : 2 ≤ fuel) :
    (ensure_symlink fuel fs target link).warned = false ∧
    (ensure_symlink fuel fs target link).fs link = some (.symlink target) ∧
    followLinks (ensure_symlink fuel fs target link).fs fuel link = some .dir := by
  obtain ⟨f, rfl⟩ : ∃ f, fuel = f + 2 := ⟨fuel - 2, by omega⟩
  have hlt : link ≠ target := by
    intro h
    rw [h, htarget] at hlink
    simp at hlink
  have hcond : (pyExists fs (f + 2) link || is_symlink fs link) = true := by
    simp [is_symlink, hlink]
  have hres : pyResolve fs (f + 2) link = old := by
    rw [show f + 2 = (f + 1) + 1 from rfl, pyResolve_succ, hlink]
    exact pyResolve_absent fs (f + 1) old hold
  have hrest : pyResolve fs (f + 2) target = target :=
    pyResolve_dir fs (f + 2) target htarget
  have hul : unlink fs link = .ok (fs.remove link) := by
    unfold unlink
    rw [hlink]
  have hsl : symlink_to (fs.remove link) link target =
      .ok ((fs.remove link).insert link (.symlink target)) := by
    simp [symlink_to, FS.remove]
  have hmain : ensure_symlink (f + 2) fs target link =
      ⟨(fs.remove link).insert link (.symlink target), false⟩ := by
    unfold ensure_symlink
    simp [hcond, hres, hrest, hul, hsl, hne]
  rw [hmain]
  refine ⟨rfl, ?_, ?_⟩
  · simp [FS.insert]
  · show followLinks ((fs.remove link).insert link (.symlink target)) (f + 2) link =
      some .dir
    rw [show f + 2 = (f + 1) + 1 from rfl, followLinks_succ]
    have hx : ((fs.remove link).insert link (.symlink target)) link =
        some (.symlink target) := by
      simp [FS.insert]
    rw [hx]
    have hy : ((fs.remove link).insert link (.symlink target)) target =
        some .dir := by
      simp [FS.insert, FS.remove, hlt.symm, htarget]
    exact followLinks_dir _ (f + 1) target hy (by omega)

/-- Witness for C3: a dangling alias inside the external repo is relinked
to the real dataset directory. -/
theorem C3_broken_alias_relinked_witness :
    (brokenFS "repos/Point-Transformers/modelnet40_normal_resampled" =
       some (.symlink "datasets/gone") ∧
     brokenFS "datasets/gone" = none ∧
     brokenFS "datasets/modelnet40_normal_resampled" = some .dir ∧
     "datasets/gone" ≠ "datasets/modelnet40_normal_resampled" ∧
     2 ≤ 2) ∧
    ((ensure_symlink 2 brokenFS "datasets/modelnet40_normal_resampled"
        "repos/Point-Transformers/modelnet40_normal_resampled").warned = false ∧
     (ensure_symlink 2 brokenFS "datasets/modelnet40_normal_resampled"
        "repos/Point-Transformers/modelnet40_normal_resampled").fs
        "repos/Point-Transformers/modelnet40_normal_resampled" =
       some (.symlink "datasets/modelnet40_normal_resampled") ∧
     followLinks (ensure_symlink 2 brokenFS "datasets/modelnet40_normal_resampled"
        "repos/Point-Transformers/modelnet40_normal_resampled").fs 2
        "repos/Point-Transformers/modelnet40_normal_resampled" = some .dir) :=
  ⟨⟨by decide, by decide, by decide, by decide, by decide⟩,
   C3_broken_alias_relinked brokenFS 2
     "repos/Point-Transformers/modelnet40_normal_resampled"
     "datasets/gone" "datasets/modelnet40_normal_resampled"
     (by decide) (by decide) (by decide) (by decide) (by decide)⟩

/-- C4: alias-creation algebra of `ensure_symlink`.  With the alias absent,
one call creates it pointing at the target; a second call with the same
target is a no-op (state unchanged, no warning); a call with a different
target relinks the alias to the new target and leaves it resolving to an
existing directory, never dangling. -/
theorem C4_create_noop_relink (fs : FS) (fuel : Nat) (t1 t2 link : String)
    (h0 : fs link = none) (h1 : fs t1 = some .dir) (h2 : fs t2 = some .dir)
    (h12 : t1 ≠ t2) (hfuel : 2 ≤ fuel) :
    (ensure_symlink fuel fs t1 link).warned = false ∧
    (ensure_symlink fuel fs t1 link).fs link = some (.symlink t1) ∧
    ensure_symlink fuel (ensure_symlink fuel fs t1 link).fs t1 link =
      ⟨(ensure_symlink fuel fs t1 link).fs, false⟩ ∧
    (ensure_symlink fuel (ensure_symlink fuel fs t1 link).fs t2 link).warned = false ∧
    (ensure_symlink fuel (ensure_symlink fuel fs t1 link).fs t2 link).fs link =
      some (.symlink t2) ∧
    followLinks (ensure_symlink fuel (ensure_symlink fuel fs t1 link).fs t2 link).fs
      fuel link = some .dir := by
  obtain ⟨f, rfl⟩ : ∃ f, fuel = f + 2 := ⟨fuel - 2, by omega⟩
  have hl1 : link ≠ t1 := by
    intro h
    rw [h, h1] at h0
    cases h0
  have hl2 : link ≠ t2 := by
    intro h
    rw [h, h2] at h0
    cases h0
  -- Phase 1: the alias is absent, so the else branch creates it.
  have hcond1 : (pyExists fs (f + 2) link || is_symlink fs link) = false := by
    simp [pyExists, followLinks_absent fs (f + 2) link h0, is_symlink, h0]
  have hsl1 : symlink_to fs link t1 = .ok (fs.insert link (.symlink t1)) := by
    simp [symlink_to, h0]
  have hr1 : ensure_symlink (f + 2) fs t1 link = ⟨fs.insert link (.symlink t1), false⟩ := by
    unfold ensure_symlink
    simp [hcond1, hsl1]
  -- Facts about the filesystem after phase 1.
  have hf1link : (fs.insert link (.symlink t1)) link = some (.symlink t1) := by
    simp [FS.insert]
  have hf1t1 : (fs.insert link (.symlink t1)) t1 = some .dir := by
    simp [FS.insert, hl1.symm, h1]
  have hf1t2 : (fs.insert link (.symlink t1)) t2 = some .dir := by
    simp [FS.insert, hl2.symm, h2]
  have hres1 : pyResolve (fs.insert link (.symlink t1)) (f + 2) link = t1 := by
    rw [show f + 2 = (f + 1) + 1 from rfl, pyResolve_succ, hf1link]
    exact pyResolve_dir _ (f + 1) t1 hf1t1
  have hrest1 : pyResolve (fs.insert link (.symlink t1)) (f + 2) t1 = t1 :=
    pyResolve_dir _ (f + 2) t1 hf1t1
  have hrest2 : pyResolve (fs.insert link (.symlink t1)) (f + 2) t2 = t2 :=
    pyResolve_dir _ (f + 2) t2 hf1t2
  have hcond2 : (pyExists (fs.insert link (.symlink t1)) (f + 2) link ||
      is_symlink (fs.insert link (.symlink t1)) link) = true := by
    simp [is_symlink, hf1link]
  -- Phase 2: same target, the resolutions agree, the inner else is a no-op.
  have hr2 : ensure_symlink (f + 2) (fs.insert link (.symlink t1)) t1 link =
      ⟨fs.insert link (.symlink t1), false⟩ := by
    unfold ensure_symlink
    simp [hcond2, hres1, hrest1]
  -- Phase 3: different target, the alias is unlinked and recreated.
  have hul3 : unlink (fs.insert link (.symlink t1)) link =
      .ok ((fs.insert link (.symlink t1)).remove link) := by
    unfold unlink
    rw [hf1link]
  have hsl3 : symlink_to ((fs.insert link (.symlink t1)).remove link) link t2 =
      .ok (((fs.insert link (.symlink t1)).remove link).insert link (.symlink t2)) := by
    simp [symlink_to, FS.remove]
  have hr3 : ensure_symlink (f + 2) (fs.insert link (.symlink t1)) t2 link =
      ⟨((fs.insert link (.symlink t1)).remove link).insert link (.symlink t2), false⟩ := by
    unfold ensure_symlink
    simp [hcond2, hres1, hrest2, hul3, hsl3, h12]
  have hf3link : (((fs.insert link (.symlink t1)).remove link).insert link
      (.symlink t2)) link = some (.symlink t2) := by
    simp [FS.insert]
  have hf3t2 : (((fs.insert link (.symlink t1)).remove link).insert link
      (.symlink t2)) t2 = some .dir := by
    simp [FS.insert, FS.remove, hl2.symm, h2]
  rw [hr1]
  refine ⟨rfl, hf1link, ?_, ?_, ?_, ?_⟩
  · exact hr2
  · rw [hr3]
  · rw [hr3]
    exact hf3link
  · rw [hr3]
    show followLinks (((fs.insert link (.symlink t1)).remove link).insert link
      (.symlink t2)) (f + 2) link = some .dir
    rw [show f + 2 = (f + 1) + 1 from rfl, followLinks_succ, hf3link]
    exact followLinks_dir _ (f + 1) t2 hf3t2 (by omega)

/-- Witness for C4: create the alias to the real dataset directory, call
again with the same target, then relink to a second dataset directory. -/
theorem C4_create_noop_relink_witness :
    (sampleFS "repos/Point-Transformers/modelnet40_normal_resampled" = none ∧
     sampleFS "datasets/modelnet40_normal_resampled" = some .dir ∧
     sampleFS "datasets/other" = some .dir ∧
     "datasets/modelnet40_normal_resampled" ≠ "datasets/other" ∧
     2 ≤ 2) ∧
    ((ensure_symlink 2 sampleFS "datasets/modelnet40_normal_resampled"
        "repos/Point-Transformers/modelnet40_normal_resampled").warned = false ∧
     (ensure_symlink 2 sampleFS "datasets/modelnet40_normal_resampled"
        "repos/Point-Transformers/modelnet40_normal_resampled").fs
        "repos/Point-Transformers/modelnet40_normal_resampled" =
       some (.symlink "datasets/modelnet40_normal_resampled") ∧
     ensure_symlink 2 (ensure_symlink 2 sampleFS "datasets/modelnet40_normal_resampled"
        "repos/Point-Transformers/modelnet40_normal_resampled").fs
        "datasets/modelnet40_normal_resampled"
        "repos/Point-Transformers/modelnet40_normal_resampled" =
       ⟨(ensure_symlink 2 sampleFS "datasets/modelnet40_normal_resampled"
          "repos/Point-Transformers/modelnet40_normal_resampled").fs, false⟩ ∧
     (ensure_symlink 2 (ensure_symlink 2 sampleFS "datasets/modelnet40_normal_resampled"
        "repos/Point-Transformers/modelnet40_normal_resampled").fs
        "datasets/other"
        "repos/Point-Transformers/modelnet40_normal_resampled").warned = false ∧
     (ensure_symlink 2 (ensure_symlink 2 sampleFS "datasets/modelnet40_normal_resampled"
        "repos/Point-Transformers/modelnet40_normal_resampled").fs
        "datasets/other"
        "repos/Point-Transformers/modelnet40_normal_resampled").fs
        "repos/Point-Transformers/modelnet40_normal_resampled" =
       some (.symlink "datasets/other") ∧
     followLinks (ensure_symlink 2 (ensure_symlink 2 sampleFS
        "datasets/modelnet40_normal_resampled"
        "repos/Point-Transformers/modelnet40_normal_resampled").fs
        "datasets/other"
        "repos/Point-Transformers/modelnet40_normal_resampled").fs 2
        "repos/Point-Transformers/modelnet40_normal_resampled" = some .dir) :=
  ⟨⟨by decide, by decide, by decide, by decide, by decide⟩,
   C4_create_noop_relink sampleFS 2
     "datasets/modelnet40_normal_resampled" "datasets/other"
     "repos/Point-Transformers/modelnet40_normal_resampled"
     (by decide) (by decide) (by decide) (by decide) (by decide)⟩

/-- C5, counterexample: the record written by this launcher holds exactly
the keys model, repo_path, repo_commit, bench_commit, time and argv (plus,
at most, the four accelerator keys) — no interpreter/runtime version field
exists under any name, refuting the claim that the record always contains
one. -/
theorem C5_counterexample :
    (buildMeta "repos/Point-Transformers" envNoTorch).map Prod.fst =
      ["model", "repo_path", "repo_commit", "bench_commit", "time", "argv"] ∧
    (buildMeta "repos/Point-Transformers" envFullTorch).map Prod.fst =
      ["model", "repo_path", "repo_commit", "bench_commit", "time", "argv",
       "torch", "cuda_version", "cuda_available", "gpu_name"] ∧
    "python" ∉ (buildMeta "repos/Point-Transformers" envNoTorch).map Prod.fst ∧
    "python_version" ∉
      (buildMeta "repos/Point-Transformers" envNoTorch).map Prod.fst ∧
    "python" ∉ (buildMeta "repos/Point-Transformers" envFullTorch).map Prod.fst ∧
    "python_version" ∉
      (buildMeta "repos/Point-Transformers" envFullTorch).map Prod.fst := by
  refine ⟨rfl, rfl, ?_, ?_, ?_, ?_⟩ <;> decide

/-- C5, amended: for every environment the record contains the model name,
both source-control revision identifiers, the timestamp and the argument
vector — but no interpreter version — even when the accelerator block is
absent, and rewriting the record at the same output path is a deterministic
overwrite, last write wins. -/
theorem C5_record_keys_and_overwrite (repoPath : String) (env : Env)
    (st : Store) (p c1 c2 : String) :
    ("model", JsonVal.str "Point-Transformers (PCT variant)") ∈
      buildMeta repoPath env ∧
    ("repo_commit", JsonVal.str (git_rev env.repoGit)) ∈ buildMeta repoPath env ∧
    ("bench_commit", JsonVal.str (git_rev env.benchGit)) ∈ buildMeta repoPath env ∧
    ("time", JsonVal.str env.timeStr) ∈ buildMeta repoPath env ∧
    ("argv", JsonVal.arr env.argv) ∈ buildMeta repoPath env ∧
    write_text (write_text st p c1) p c2 = write_text st p c2 := by
  have hw : write_text (write_text st p c1) p c2 = write_text st p c2 := by
    funext q
    unfold write_text
    by_cases h : q = p <;> simp [h]
  refine ⟨?_, ?_, ?_, ?_, ?_, hw⟩ <;>
    · simp only [buildMeta]
      cases torchBlock env.torch <;> simp

/-- C6: the source-control revision lookup is total over every outcome of
the `git` invocation: each possible exception yields the sentinel
"unknown", a successful lookup yields the stripped output, and in the
record both commit fields are therefore always present — a failed lookup
for either repository never aborts the run. -/
theorem C6_git_rev_never_fails (e1 e2 : GitError) (s : String)
    (repoPath : String) (env : Env) :
    git_rev (.error e1) = "unknown" ∧
    git_rev (.ok s) = s.trim ∧
    ("repo_commit", JsonVal.str "unknown") ∈
      buildMeta repoPath { env with repoGit := .error e1 } ∧
    ("bench_commit", JsonVal.str "unknown") ∈
      buildMeta repoPath { env with benchGit := .error e2 } := by
  refine ⟨rfl, rfl, ?_, ?_⟩ <;>
    · simp only [buildMeta, git_rev]
      cases torchBlock env.torch <;> simp

/-- C7: the accelerator block of the record is all-or-nothing — for every
environment the key list is either exactly the six base keys, or exactly
those six followed by all four accelerator keys (torch, cuda_version,
cuda_available, gpu_name); a missing library or a failing introspection
never yields a partial block and never makes the build fail. -/
theorem C7_torch_all_or_nothing (repoPath : String) (env : Env) :
    (buildMeta repoPath env).map Prod.fst =
      ["model", "repo_path", "repo_commit", "bench_commit", "time", "argv"] ∨
    (buildMeta repoPath env).map Prod.fst =
      ["model", "repo_path", "repo_commit", "bench_commit", "time", "argv",
       "torch", "cuda_version", "cuda_available", "gpu_name"] := by
  unfold buildMeta torchBlock
  cases env.torch with
  | none => left; rfl
  | some t =>
    obtain ⟨ver, cv, avail, gdn⟩ := t
    cases ver with
    | error e => left; rfl
    | ok v =>
      cases avail with
      | error e2 => left; rfl
      | ok b =>
        cases b with
        | false => right; rfl
        | true =>
          cases gdn with
          | error e3 => left; rfl
          | ok g => right; rfl

/-- C8: on a sample array of shape (1, 4, 6), plotting index 0 does not
raise, and with the handle requested the returned scatter reflects exactly
4 plotted points, colored by the third normal component (the sixth column)
of each point. -/
theorem C8_cloud_four_points {α : Type} (s : List (Point6 α))
    (hs : s.length = 4) (colorbar : Bool) (point_size : ℚ) :
    ∃ out : CloudResult α,
      visualize_cloud [s] 0 none colorbar true point_size = .ok out ∧
      out.returned = some out.sc ∧
      out.sc.xs.length = 4 ∧ out.sc.ys.length = 4 ∧ out.sc.zs.length = 4 ∧
      out.sc.colors = s.map (fun p => p.nz) := by
  refine ⟨_, rfl, rfl, ?_, ?_, ?_, rfl⟩ <;> simp [scatterOf, hs]

/-- Witness for C8: a concrete four-point integer sample. -/
theorem C8_cloud_four_points_witness :
    samplePoints.length = 4 ∧
    ∃ out : CloudResult Int,
      visualize_cloud [samplePoints] 0 none true true 1 = .ok out ∧
      out.returned = some out.sc ∧
      out.sc.xs.length = 4 ∧ out.sc.ys.length = 4 ∧ out.sc.zs.length = 4 ∧
      out.sc.colors = samplePoints.map (fun p => p.nz) :=
  ⟨rfl, C8_cloud_four_points samplePoints rfl true 1⟩

/-- C9: when a pre-existing axes object is supplied, `created_fig` is false,
so passing `colorbar=True` has no effect — the call's outcome is identical
to the `colorbar=False` call and no colorbar is ever added. -/
theorem C9_colorbar_needs_own_figure {α : Type} (data : List (List (Point6 α)))
    (i : Nat) (a : Axes α) (return_sc : Bool) (point_size : ℚ) :
    visualize_cloud data i (some a) true return_sc point_size =
      visualize_cloud data i (some a) false return_sc point_size ∧
    Except.map (fun out => out.colorbarAdded)
        (visualize_cloud data i (some a) true return_sc point_size) =
      Except.map (fun _ => false)
        (visualize_cloud data i (some a) true return_sc point_size) := by
  unfold visualize_cloud
  cases data[i]? <;> simp [Except.map]

/-- Unfolding equation for `plotGrid` on two empty lists. -/
theorem plotGrid_nil_axes {α : Type} (data : List (List (Point6 α)))
    (point_size : ℚ) (indices : List Nat) :
    plotGrid data point_size [] indices = .ok [] := by
  cases indices <;> rfl

/-- Unfolding equation for `plotGrid` when the indices run out first. -/
theorem plotGrid_nil_indices {α : Type} (data : List (List (Point6 α)))
    (point_size : ℚ) (ax : Axes α) (axs : List (Axes α)) :
    plotGrid data point_size (ax :: axs) [] = .ok (ax :: axs) := rfl

/-- Unfolding equation for `plotGrid` in the cons-cons case. -/
theorem plotGrid_cons {α : Type} (data : List (List (Point6 α)))
    (point_size : ℚ) (ax : Axes α) (axs : List (Axes α)) (idx : Nat)
    (rest : List Nat) :
    plotGrid data point_size (ax :: axs) (idx :: rest) =
      match visualize_cloud data idx (some ax) false true point_size with
      | .error e => .error e
      | .ok out =>
        match plotGrid data point_size axs rest with
        | .error e => .error e
        | .ok tail =>
          .ok ({ out.axOut with title := some ("Sample " ++ toString idx) }
            :: tail) := rfl

/-- Behavior of the zip loop on a grid of fresh axes: it succeeds whenever
the first `axs.length` indices are in range, fills exactly the zipped
prefix of the axes — one scatter and a title each — and leaves the
remaining axes untouched. -/
theorem plotGrid_spec {α : Type} (data : List (List (Point6 α))) (point_size : ℚ) :
    ∀ (axs : List (Axes α)) (indices : List Nat),
      (∀ ax ∈ axs, ax = emptyAxes α) →
      (∀ idx ∈ indices.take axs.length, idx < data.length) →
      ∃ outAxs : List (Axes α),
        plotGrid data point_size axs indices = .ok outAxs ∧
        outAxs.length = axs.length ∧
        outAxs.map (fun ax => (ax.scatters.length, ax.title)) =
          (indices.take axs.length).map
            (fun idx => (1, some ("Sample " ++ toString idx)))
          ++ List.replicate (axs.length - indices.length)
              ((0 : Nat), (none : Option String)) := by
  intro axs
  induction axs with
  | nil =>
    intro indices _ _
    exact ⟨[], plotGrid_nil_axes data point_size indices, rfl, by simp⟩
  | cons ax axs ih =>
    intro indices hempty hvalid
    have hax : ax = emptyAxes α := hempty ax (List.mem_cons_self ax axs)
    subst hax
    simp only [List.length_cons] at hvalid ⊢
    cases indices with
    | nil =>
      refine ⟨emptyAxes α :: axs, plotGrid_nil_indices data point_size _ axs, rfl, ?_⟩
      simp only [List.take_nil, List.map_nil, List.nil_append, List.length_nil,
        Nat.sub_zero, List.length_cons]
      rw [List.eq_replicate_iff]
      refine ⟨by simp, ?_⟩
      intro b hb
      obtain ⟨a0, ha0, rfl⟩ := List.mem_map.mp hb
      rw [hempty a0 ha0]
      rfl
    | cons idx rest =>
      have hidx : idx < data.length := by
        refine hvalid idx ?_
        rw [List.take_succ_cons]
        exact List.mem_cons_self idx _
      obtain ⟨sample, hsample⟩ : ∃ sample, data[idx]? = some sample :=
        ⟨data[idx], List.getElem?_eq_getElem hidx⟩
      have hvc : visualize_cloud data idx (some (emptyAxes α)) false true
          point_size =
          .ok { axOut := { scatters := [scatterOf sample point_size],
                           title := none },
                sc := scatterOf sample point_size,
                createdFig := false, colorbarAdded := false,
                returned := some (scatterOf sample point_size) } := by
        unfold visualize_cloud
        rw [hsample]
        rfl
      have hrest : ∀ j ∈ rest.take axs.length, j < data.length := by
        intro j hj
        refine hvalid j ?_
        rw [List.take_succ_cons]
        exact List.mem_cons_of_mem idx hj
      obtain ⟨tail, htail, hlen, hmap⟩ :=
        ih rest (fun a ha => hempty a (List.mem_cons_of_mem _ ha)) hrest
      refine ⟨({ scatters := [scatterOf sample point_size],
                 title := some ("Sample " ++ toString idx) } : Axes α) :: tail,
        ?_, by simp [hlen], ?_⟩
      · rw [plotGrid_cons, hvc, htail]
      · simp [List.take_succ_cons, Nat.succ_sub_succ, hmap]

/-- C10: for every index list, exactly min(6, length) samples are rendered —
the zip against the fixed 2x3 grid silently ignores indices beyond the
sixth, and with fewer than six indices the remaining subplots stay empty
and untitled, without raising; only the first six indices need to be in
range. -/
theorem C10_grid_renders_min_six {α : Type} (data : List (List (Point6 α)))
    (indices : List Nat) (title : String) (point_size : ℚ)
    (hvalid : ∀ idx ∈ indices.take 6, idx < data.length) :
    ∃ fig : GridFig α,
      visualize_samples data indices title point_size = .ok fig ∧
      fig.suptitle = title ∧
      fig.axes.length = 6 ∧
      fig.axes.map (fun ax => (ax.scatters.length, ax.title)) =
        (indices.take 6).map (fun idx => (1, some ("Sample " ++ toString idx)))
          ++ List.replicate (6 - min 6 indices.length)
              ((0 : Nat), (none : Option String)) := by
  obtain ⟨outAxs, hpg, hlen, hmap⟩ := plotGrid_spec data point_size
    (List.replicate 6 (emptyAxes α)) indices
    (fun a ha => List.eq_of_mem_replicate ha)
    (by simpa using hvalid)
  refine ⟨{ axes := outAxs, suptitle := title }, ?_, rfl, ?_, ?_⟩
  · unfold visualize_samples
    rw [hpg]
  · simpa using hlen
  · rw [show (6 : Nat) - min 6 indices.length = 6 - indices.length by omega]
    simpa using hmap

/-- Witness for C10: seven copies of index 0 over a one-sample array render
six subplots; the seventh index is ignored. -/
theorem C10_grid_renders_min_six_witness :
    (∀ idx ∈ ([0, 0, 0, 0, 0, 0, 0] : List Nat).take 6,
      idx < ([samplePoints] : List (List (Point6 Int))).length) ∧
    ∃ fig : GridFig Int,
      visualize_samples [samplePoints] [0, 0, 0, 0, 0, 0, 0] "ModelNet40" 1 =
        .ok fig ∧
      fig.suptitle = "ModelNet40" ∧
      fig.axes.length = 6 ∧
      fig.axes.map (fun ax => (ax.scatters.length, ax.title)) =
        (([0, 0, 0, 0, 0, 0, 0] : List Nat).take 6).map
          (fun idx => (1, some ("Sample " ++ toString idx)))
          ++ List.replicate (6 - min 6 ([0, 0, 0, 0, 0, 0, 0] : List Nat).length)
              ((0 : Nat), (none : Option String)) :=
  ⟨by decide,
   C10_grid_renders_min_six [samplePoints] [0, 0, 0, 0, 0, 0, 0] "ModelNet40" 1
     (by decide)⟩
